import Mathlib

/-!
Shallow embedding of `src/download.py` (culy247/download-mp3-o3): the
candidate scorer `score_entry`, the high-quality-source filtering
`search_high_quality_sources`, the retrying fetch wrapper `try_download`, and
the per-song resolver `download_song` (Phase A: high-quality tier; Phase B:
YouTube fallback tier).

Modelling choices:
* Python strings are `String`, inspected through their `List Char` data; the
  substring test `needle in hay` and `hay.find(needle)` are embedded by the
  executable `findSub` below (first-occurrence index, empty needle at 0,
  mirroring CPython semantics).
* `str.lower()` is embedded as `pyLower` (per-character `Char.toLower`).  It
  agrees with CPython on the ASCII range; every keyword constant in the source
  is already lower-case, and all concrete inputs used below are lower-case, so
  the difference on non-ASCII upper-case letters is never exercised.
* Numbers: durations, view counts and all additive score components are exact
  rationals; the single transcendental term `math.log10(view+1)*0.5` is
  embedded with `Real.logb`, so the final score lives in `ℝ`.  The float
  arithmetic of the source is idealised as exact arithmetic.
* The external engine (yt-dlp search/fetch, `os.path.exists`) is an opaque
  environment `Env` of oracles; `download_song` additionally returns
  observation traces (which candidates were attempted, which fetch calls were
  issued) so that frame properties can be stated.  `print` calls are dropped.
-/

/-- Test whether `n` is a prefix of `h` (list-level, executable). -/
def isPref : List Char → List Char → Bool
  | [], _ => true
  | _ :: _, [] => false
  | a :: as, b :: bs => a = b && isPref as bs

/-- Embedding of CPython `hay.find(needle)` restricted to found/not-found:
first index at which `needle` occurs in `hay`, `none` if absent.
An empty needle is found at index 0, as in Python. -/
def findSub (needle : List Char) : List Char → Option Nat
  | [] => if isPref needle [] then some 0 else none
  | c :: t => if isPref needle (c :: t) then some 0 else (findSub needle t).map (· + 1)

/-- Embedding of Python `needle in hay` for strings. -/
def occurs (needle hay : String) : Bool :=
  (findSub needle.data hay.data).isSome

/-- Embedding of Python `s.lower()` (ASCII case folding, see header note). -/
def pyLower (s : String) : String :=
  String.mk (s.data.map Char.toLower)

/-- Embedding of `re.sub(r'[\\/*?:"<>|]', "", name)` from `safe_filename`. -/
def safe_filename (name : String) : String :=
  String.mk (name.data.filter (fun c => !(
    c = '\\' || c = '/' || c = '*' || c = '?' || c = ':' ||
    c = '"' || c = '<' || c = '>' || c = '|')))

/-- Split a character list at every occurrence of `sep` (keeping empty
pieces); used to embed Python `str.split()` below. -/
def splitChar (sep : Char) : List Char → List (List Char)
  | [] => [[]]
  | a :: rest =>
    let r := splitChar sep rest
    if a = sep then [] :: r
    else
      match r with
      | [] => [[a]]
      | w :: ws => (a :: w) :: ws

/-- The `TRUSTED_ARTISTS` constant from `src/download.py` (verbatim,
duplicates included). -/
def TRUSTED_ARTISTS : List String :=
  ["nsnd", "nsưt", "nghệ sĩ nhân dân", "nghệ sĩ ưu tú",
   "trọng tấn", "anh thơ", "thu hiền", "quang thọ", "đăng dương",
   "trung đức", "lan anh", "tân nhàn", "việt hoàn", "quang hưng",
   "minh thuận", "thanh hoa", "hồng nhung", "kim anh", "thu hà",
   "thanh hương", "minh phượng", "thu hiền", "kim thoa", "thu hiền",
   "minh thuận", "thanh hoa", "hồng nhung", "kim anh", "thu hà",
   "quang lê", "đàm vĩnh hưng", "mỹ tâm", "hồng nhung", "thanh lam",
   "trần thu hà", "minh thuận", "thanh hoa", "kim anh", "thu hà",
   "minh phượng", "thu hiền", "kim thoa", "thu hiền", "minh thuận",
   "official", "chính thức", "mv", "hq", "hd", "4k", "full hd",
   "nhạc cách mạng", "nhạc đỏ", "ca khúc cách mạng"]

/-- The `UNTRUSTED_KEYWORDS` constant from `src/download.py` (verbatim). -/
def UNTRUSTED_KEYWORDS : List String :=
  ["thần đồng", "thiếu nhi", "giọng ca nhí", "idol", "thần đồng âm nhạc",
   "ca sĩ nhí", "bé", "em bé", "trẻ em", "nhí", "kid", "child",
   "bolero", "cover", "karaoke", "remix", "beat", "instrumental",
   "nonstop", "dj", "acoustic", "mashup", "parody", "version",
   "nhạc nền", "backing track", "minus one", "playback",
   "tuyển tập", "liên khúc", "lk", "medley", "album", "compilation",
   "full", "những bài hát", "top", "hay nhất", "best of", "greatest hits",
   "tổng hợp", "tuyển chọn", "bộ sưu tập", "collection",
   "siêu phẩm", "đặc biệt", "hot", "trending", "viral", "mới nhất",
   "2024", "2023", "2022", "2021", "2020", "năm nay", "tháng này",
   "không thể bỏ qua", "phải nghe", "nghe ngay", "xem ngay",
   "chưa từng có", "độc quyền", "exclusive", "premiere",
   "chất lượng thấp", "lq", "360p", "480p", "720p", "low quality",
   "tải về", "download", "free", "miễn phí", "không quảng cáo",
   "sub", "subscribe", "like", "share", "comment", "đăng ký",
   "nhấn chuông", "bell", "notification", "thông báo",
   "link", "liên kết", "description", "mô tả", "info",
   "fanmade", "tự làm", "diy", "homemade", "amateur", "nghiệp dư",
   "không chính thức", "unofficial", "leak", "rò rỉ"]

/-- The `STRONG_PENALTIES` constant from `src/download.py` (verbatim). -/
def STRONG_PENALTIES : List String :=
  ["karaoke", "cover", "live", "concert", "show", "biểu diễn",
   "thần đồng", "ca sĩ nhí", "thiếu nhi", "giọng ca nhí",
   "fanmade", "tự làm", "diy", "homemade", "amateur", "nghiệp dư",
   "không chính thức", "unofficial", "leak", "rò rỉ",
   "sub", "subscribe", "like", "share", "comment", "đăng ký",
   "nhấn chuông", "bell", "notification", "thông báo"]

/-- The curated `promotional_keywords` list local to `score_entry`. -/
def promotional_keywords : List String :=
  ["top", "hay nhất", "đặc biệt", "siêu phẩm", "tuyển tập", "liên khúc"]

/-- Number of `promotional_keywords` occurring in the (lowered) title:
`promo_count = sum(1 for kw in promotional_keywords if kw in title)`. -/
def promoCount (title : String) : Nat :=
  promotional_keywords.countP (fun kw => occurs kw title)

/-- The promotional-density rule of `score_entry`:
`if promo_count > 2: score -= promo_count * 2`, as an additive term. -/
def promoPenalty (title : String) : ℚ :=
  if 2 < promoCount title then -((promoCount title : ℚ) * 2) else 0

/-- Strong-penalty rule: `for bad in STRONG_PENALTIES: if bad in title:
score -= 20` — one subtraction per distinct listed keyword present. -/
def strongPenalty (title : String) : ℚ :=
  -(20 * ((STRONG_PENALTIES.countP (fun kw => occurs kw title) : ℚ)))

/-- Count `untrusted_count = sum(1 for bad in UNTRUSTED_KEYWORDS if bad in title)`. -/
def untrustedCount (title : String) : Nat :=
  UNTRUSTED_KEYWORDS.countP (fun kw => occurs kw title)

/-- Untrusted-keyword rule: `if untrusted_count > 0:
score -= 10 + (untrusted_count * 3)`, as an additive term. -/
def untrustedPenalty (title : String) : ℚ :=
  if 0 < untrustedCount title then -(10 + (untrustedCount title : ℚ) * 3) else 0

/-- Trusted-artist rule: `if any(artist in title for artist in
TRUSTED_ARTISTS): score += 8`. -/
def trustedBonus (title : String) : ℚ :=
  if TRUSTED_ARTISTS.any (fun a => occurs a title) then 8 else 0

/-- Target-title match rule: `if song_lower in title: score += 8` plus the
position bonus from `idx = title.find(song_lower)`
(`idx == 0 → +8`, `elif idx <= 15 → +4`). -/
def matchBonus (title song : String) : ℚ :=
  match findSub song.data title.data with
  | none => 0
  | some idx => 8 + (if idx = 0 then 8 else if idx ≤ 15 then 4 else 0)

/-- Words `song_words = [w for w in song_lower.split() if len(w) > 2]`
(split at spaces; empty pieces are removed by the length filter). -/
def songWords (song : String) : List String :=
  ((splitChar ' ' song.data).map String.mk).filter (fun w => 2 < w.length)

/-- Word-match rule: `matching_words = sum(1 for w in song_words if w in
title); score += matching_words * 1.5`. -/
def wordBonus (title song : String) : ℚ :=
  ((songWords song).countP (fun w => occurs w title) : ℚ) * (3 / 2)

/-- The title-length shaping rule of `score_entry` as a function of the
character count (`len(title)`). -/
def lengthTermOf (n : Nat) : ℚ :=
  if n < 50 then 3
  else if n < 80 then 1
  else if 120 < n then -8
  else if 100 < n then -4
  else 0

/-- Title-length rule applied to the lowered title. -/
def lengthTerm (title : String) : ℚ :=
  lengthTermOf title.length

/-- Sum of all additive rules of `score_entry` except the view-count term
(the source accumulates them sequentially into `score`; addition is
reassociated here, which is sound for exact arithmetic). -/
def scoreBase (title song : String) : ℚ :=
  strongPenalty title + untrustedPenalty title + trustedBonus title +
    matchBonus title song + wordBonus title song + lengthTerm title +
    promoPenalty title

/-- View-count rule: `view_num = float(view_count or 0); if view_num > 0:
score += math.log10(view_num + 1) * 0.5`. -/
noncomputable def viewBonus (v : ℚ) : ℝ :=
  if 0 < v then Real.logb 10 ((v : ℝ) + 1) * (1 / 2) else 0

/-- One search-result metadata record, as read by the Python code via
`entry.get(...)`: absent fields are `none`. -/
structure Entry where
  id : String := ""
  title : Option String := none
  duration : Option ℚ := none
  view_count : Option ℚ := none
deriving DecidableEq

/-- The duration gate of `score_entry` for a known numeric duration:
`(min_duration and duration < min_duration) or (max_duration and duration >
max_duration)` — note Python truthiness: a `None` or `0` bound is inert. -/
def durationExcluded (d : ℚ) (minD maxD : Option ℚ) : Bool :=
  (match minD with
   | none => false
   | some m => if m = 0 then false else decide (d < m)) ||
  (match maxD with
   | none => false
   | some M => if M = 0 then false else decide (M < d))

/-- Duration gate lifted to the optional duration field
(`isinstance(duration, (int, float))` : an absent duration is never gated). -/
def durExcludedOpt : Option ℚ → Option ℚ → Option ℚ → Bool
  | some d, minD, maxD => durationExcluded d minD maxD
  | none, _, _ => false

/-- Embedding of `score_entry(entry, song_name, min_duration, max_duration)`.
Returns the sentinel `-999` for an empty/missing title or a gated duration,
otherwise the sum of all additive rules. -/
noncomputable def score_entry (e : Entry) (song : String)
    (minD maxD : Option ℚ) : ℝ :=
  if pyLower (e.title.getD "") = "" then -999
  else if durExcludedOpt e.duration minD maxD then -999
  else ((scoreBase (pyLower (e.title.getD "")) (pyLower song) : ℚ) : ℝ) +
    viewBonus (e.view_count.getD 0)

/-!
Stable descending sort.  Python `list.sort(key=..., reverse=True)` is a
stable sort ordered by descending key (CPython keeps equal-key elements in
their original relative order even with `reverse=True`).  A stable sort is
extensionally unique, so it is embedded here as straight insertion before the
first element of smaller-or-equal key.
-/

/-- Insert `x` before the first element whose key is `≤ key x`. -/
def insertDesc {α β : Type _} [LinearOrder β] (key : α → β) (x : α) :
    List α → List α
  | [] => [x]
  | y :: ys => if key y ≤ key x then x :: y :: ys else y :: insertDesc key x ys

/-- Stable sort by descending key (embedding of Python
`sort(key=..., reverse=True)`). -/
def sortDesc {α β : Type _} [LinearOrder β] (key : α → β) : List α → List α
  | [] => []
  | x :: xs => insertDesc key x (sortDesc key xs)

/-!
Embedding of the fetch options and of `try_download`.
`FetchOpts` keeps the fields of the yt-dlp option dictionaries that vary
between calls; `playerClient` stands for
`extractor_args["youtube"]["player_client"]`.
-/

/-- The varying fields of the option dictionary built by
`build_download_opts`. -/
structure FetchOpts where
  outtmpl : String
  quality : ℤ
  quiet : Bool
  playerClient : Option (List String)
  cookies : Option String
deriving DecidableEq

/-- Embedding of `build_download_opts` (the fixed fields `format`,
`noplaylist`, `postprocessors` are constants and omitted). -/
def build_download_opts (output_dir filenameTmpl : String) (quality : ℤ)
    (verbose : Bool) (client : String) (cookies : Option String) : FetchOpts :=
  { outtmpl := output_dir ++ "/" ++ filenameTmpl
    quality := quality
    quiet := !verbose
    playerClient := if client = "android" then some ["android"] else none
    cookies := cookies }

/-- The fallback-option merge of `try_download`: whatever `extractor_args`
held before, the result maps `youtube.player_client` to `["android"]`
(the fallback profile wins on conflict; other fields are preserved). -/
def mergeAndroid (o : FetchOpts) : FetchOpts :=
  { o with playerClient := some ["android"] }

/-- Embedding of `try_download(url, base_opts, fallback_android, verbose)`.
`fetch` is the external capability (`yt_dlp ... .download`); the second
component of the result is the trace of fetch calls actually issued.
A second failure is wrapped exactly as the `RuntimeError` message of the
source; without fallback the first error is re-raised unchanged. -/
def try_download (fetch : String → FetchOpts → Except String Unit)
    (url : String) (base : FetchOpts) (fallback_android : Bool) :
    Except String Unit × List (String × FetchOpts) :=
  match fetch url base with
  | .ok _ => (.ok (), [(url, base)])
  | .error e =>
    if fallback_android then
      match fetch url (mergeAndroid base) with
      | .ok _ => (.ok (), [(url, base), (url, mergeAndroid base)])
      | .error e2 =>
        (.error ("Tải thất bại sau khi thử fallback android: " ++ e2),
          [(url, base), (url, mergeAndroid base)])
    else (.error e, [(url, base)])

/-!
Embedding of `search_high_quality_sources` (the post-search processing of
the raw entry list: duration filter, quality score, descending stable sort,
top 10).
-/

/-- The `quality_score` computed in `search_high_quality_sources`. -/
def qualityScore (e : Entry) : ℤ :=
  (if ["official", "mv", "hq", "hd", "4k", "chính thức"].any
      (fun w => occurs w (pyLower (e.title.getD ""))) then 5 else 0) +
  (if ["lossless", "flac", "wav", "hi-res"].any
      (fun w => occurs w (pyLower (e.title.getD ""))) then 10 else 0) +
  (if ["karaoke", "cover", "remix", "beat"].any
      (fun w => occurs w (pyLower (e.title.getD ""))) then -5 else 0)

/-- Embedding of the result processing of `search_high_quality_sources`:
`entries[:15]`, keep `entry.get("duration", 0) > 30`, sort by
`quality_score` descending (stable), return the top 10. -/
def search_high_quality_sources (entries : List Entry) : List Entry :=
  (sortDesc qualityScore
    ((entries.take 15).filter (fun e => decide ((30 : ℚ) < e.duration.getD 0)))).take 10

/-!
Embedding of `download_song`.  The external engine is the oracle record
`Env`; CLI parameters are `Args`.  The result `DSResult` carries the tuple
`(successes, len(failures), failures)` returned by the source, a marker of
whether the Phase-B (YouTube fallback) branch was entered, and observation
traces: `hqCalls` (Phase-A fetch invocations), `attempts` (Phase-B
candidates that reached the fetch stage) and `fetchCalls` (actual Phase-B
fetch invocations, retries included).
-/

/-- Oracles for the external engine: the already-fetched Phase-A search
results, the Phase-B search outcome (`ydl.extract_info` value or exception),
`os.path.exists`, and the two fetch capabilities. -/
structure Env where
  hq_results : List Entry
  yt_search : Except String (List Entry)
  pathExists : String → Bool
  hqFetch : Entry → Except String Bool
  ytFetch : String → FetchOpts → Except String Unit

/-- The parameters of `download_song`. -/
structure Args where
  limit : ℤ
  output_dir : String
  quality : ℤ
  verbose : Bool
  client : String
  cookies : Option String
  skip_existing : Bool
  dry_run : Bool
  min_duration : Option ℚ
  max_duration : Option ℚ
  use_mp3_sites : Bool
  mp3_site : String

/-- Lookup `HIGH_QUALITY_SOURCES[key]["name"]`. -/
def hqSourceName (k : String) : String :=
  if k = "soundcloud" then "SoundCloud"
  else if k = "high_quality" then "YouTube Chất Lượng Cao"
  else if k = "lossless" then "YouTube Lossless"
  else if k = "premium" then "YouTube Premium"
  else ""

/-- Python list slicing `l[:n]` for a possibly negative `n`. -/
def pyTake {α : Type _} (n : ℤ) (l : List α) : List α :=
  if 0 ≤ n then l.take n.toNat else l.take (l.length - n.natAbs)

/-- The deterministic Phase-A output path for `(song, source, rank, title)`
(`os.path.join(output_dir, f"{safe_filename(song_name)} - {name}{idx} -
{safe_filename(title)}.mp3")`). -/
def hqMp3 (args : Args) (song : String) (idx : ℕ) (title : String) : String :=
  args.output_dir ++ "/" ++ safe_filename song ++ " - " ++
    hqSourceName args.mp3_site ++ toString idx ++ " - " ++
    safe_filename title ++ ".mp3"

/-- One iteration of the Phase-A loop
(`for idx, result in enumerate(hq_results[:limit], 1)`); the state is
`(successes, failures, hqCalls)`. -/
def phaseAStep (env : Env) (args : Args) (song : String)
    (st : ℕ × List String × List Entry) (p : ℕ × Entry) :
    ℕ × List String × List Entry :=
  let idx := p.1
  let result := p.2
  let title := result.title.getD "Unknown"
  let hqName := hqSourceName args.mp3_site
  if args.skip_existing && env.pathExists (hqMp3 args song idx title) then st
  else if args.dry_run then (st.1 + 1, st.2.1, st.2.2)
  else
    match env.hqFetch result with
    | .ok true => (st.1 + 1, st.2.1, st.2.2 ++ [result])
    | .ok false =>
      (st.1, st.2.1 ++ [song ++ "\t" ++ hqName ++ toString idx ++ "\t" ++
        title ++ "\tTải thất bại"], st.2.2 ++ [result])
    | .error e =>
      (st.1, st.2.1 ++ [song ++ "\t" ++ hqName ++ toString idx ++ "\t" ++
        title ++ "\t" ++ e], st.2.2 ++ [result])

/-- The Phase-A (high-quality tier) loop of `download_song`. -/
def phaseA (env : Env) (args : Args) (song : String) :
    ℕ × List String × List Entry :=
  ((pyTake args.limit env.hq_results).enumFrom 1).foldl
    (phaseAStep env args song) (0, [], [])

/-- State of the Phase-B loop, plus observation traces. -/
structure BState where
  succ : ℕ
  fails : List String
  attempts : List (ℕ × String)
  fetchCalls : List (String × FetchOpts)
deriving DecidableEq

/-- Video URL built from the entry id, as in the source. -/
def ytUrl (e : Entry) : String :=
  "https://www.youtube.com/watch?v=" ++ e.id

/-- The Phase-B output template
`f"{safe_filename(song_name)} - Top{idx} - {safe_filename(title)}.%(ext)s"`. -/
def topTmpl (song : String) (idx : ℕ) (title : String) : String :=
  safe_filename song ++ " - Top" ++ toString idx ++ " - " ++
    safe_filename title ++ ".%(ext)s"

/-- The deterministic Phase-B output path: the template joined to the output
directory with `.%(ext)s` replaced by `.mp3`. -/
def topMp3 (args : Args) (song : String) (idx : ℕ) (title : String) : String :=
  args.output_dir ++ "/" ++ safe_filename song ++ " - Top" ++ toString idx ++
    " - " ++ safe_filename title ++ ".mp3"

/-- The fetch options built for a Phase-B candidate. -/
def bOpts (args : Args) (song : String) (idx : ℕ) (title : String) : FetchOpts :=
  build_download_opts args.output_dir (topTmpl song idx title) args.quality
    args.verbose args.client args.cookies

/-- One iteration of the Phase-B loop
(`for idx, (score, e) in enumerate(topn, start=1)`).  The score component is
only printed by the source, hence unused here. -/
def phaseBStep (env : Env) (args : Args) (song : String) (st : BState)
    (p : ℕ × ℝ × Entry) : BState :=
  let idx := p.1
  let e := p.2.2
  let title := e.title.getD "Unknown"
  if args.skip_existing && env.pathExists (topMp3 args song idx title) then st
  else if args.dry_run then st
  else
    let r := try_download env.ytFetch (ytUrl e) (bOpts args song idx title)
      (args.client != "android")
    match r.1 with
    | .ok _ =>
      { st with
        succ := st.succ + 1
        attempts := st.attempts ++ [(idx, title)]
        fetchCalls := st.fetchCalls ++ r.2 }
    | .error msg =>
      { st with
        fails := st.fails ++ [song ++ "\tTop" ++ toString idx ++ "\t" ++
          title ++ "\t" ++ msg]
        attempts := st.attempts ++ [(idx, title)]
        fetchCalls := st.fetchCalls ++ r.2 }

/-- Scoring pass `scored = [(score_entry(e, ...), e) for e in entries]`. -/
noncomputable def scoredOf (args : Args) (song : String)
    (entries : List Entry) : List (ℝ × Entry) :=
  entries.map (fun e => (score_entry e song args.min_duration args.max_duration, e))

/-- Sentinel filter `scored = [s for s in scored if s[0] > -999]`. -/
noncomputable def filterEligible (l : List (ℝ × Entry)) : List (ℝ × Entry) :=
  l.filter (fun s => decide ((-999 : ℝ) < s.1))

/-- Ranking `scored.sort(key=lambda x: x[0], reverse=True)`. -/
noncomputable def rankCandidates (l : List (ℝ × Entry)) : List (ℝ × Entry) :=
  sortDesc (fun s => s.1) l

/-- Selection `topn = scored[:max(1, limit)]` (after filtering and sorting). -/
noncomputable def topnOf (args : Args) (l : List (ℝ × Entry)) :
    List (ℝ × Entry) :=
  (rankCandidates (filterEligible l)).take (max 1 args.limit).toNat

/-- Result of `download_song`: the returned triple plus observation traces. -/
structure DSResult where
  successes : ℕ
  failCount : ℕ
  failures : List String
  usedPhaseB : Bool
  hqCalls : List Entry
  attempts : List (ℕ × String)
  fetchCalls : List (String × FetchOpts)
deriving DecidableEq

/-- The Phase-B (YouTube fallback) part of `download_song`, entered with the
accumulated Phase-A state.  A search exception appends one song-level failure
(`f"{song_name}\t{e}"`); an empty result list returns `(0, 1, [...])`
verbatim as the source does (discarding earlier failures). -/
noncomputable def phaseB (env : Env) (args : Args) (song : String)
    (succ0 : ℕ) (fails0 : List String) (acalls : List Entry) : DSResult :=
  match env.yt_search with
  | .error e =>
    let fs := fails0 ++ [song ++ "\t" ++ e]
    ⟨succ0, fs.length, fs, true, acalls, [], []⟩
  | .ok entries =>
    if entries = [] then
      ⟨0, 1, [song ++ "\tKhông tìm thấy kết quả"], true, acalls, [], []⟩
    else
      let topn := topnOf args (scoredOf args song entries)
      if topn = [] then
        ⟨0, 1, [song ++ "\tKhông có ứng viên hợp lệ"], true, acalls, [], []⟩
      else
        let final := (topn.enumFrom 1).foldl (phaseBStep env args song)
          ⟨succ0, fails0, [], []⟩
        ⟨final.succ, final.fails.length, final.fails, true, acalls,
          final.attempts, final.fetchCalls⟩

/-- Embedding of `download_song`.  When `use_mp3_sites` is set, Phase A runs
first and a strictly positive success count returns immediately (the line
`if successes > 0: return ...` in the source); otherwise control falls
through to Phase B.
(The source guards the Phase-A loop by `if hq_results:`; with an empty result
list the loop body never runs and `successes` stays 0, so running `phaseA`
unconditionally is equivalent.) -/
noncomputable def download_song (env : Env) (args : Args) (song : String) :
    DSResult :=
  if args.use_mp3_sites then
    let a := phaseA env args song
    if 0 < a.1 then ⟨a.1, a.2.1.length, a.2.1, false, a.2.2, [], []⟩
    else phaseB env args song a.1 a.2.1 a.2.2
  else phaseB env args song 0 [] []

/-!
Concrete environments and parameter records used by the witnesses below.
-/

/-- Default CLI parameters (`--limit 5 --quality 192 --client web` etc.). -/
def argsBase : Args :=
  { limit := 5, output_dir := "downloads", quality := 192, verbose := false,
    client := "web", cookies := none, skip_existing := false, dry_run := false,
    min_duration := none, max_duration := none, use_mp3_sites := false,
    mp3_site := "high_quality" }

/-- A minimal eligible candidate. -/
def eX : Entry := ⟨"abc", some "x", none, none⟩

/-- Environment: one Phase-A result, everything else inert. -/
def envC5 : Env :=
  { hq_results := [⟨"id1", some "x", none, none⟩], yt_search := .ok [],
    pathExists := fun _ => false, hqFetch := fun _ => .ok true,
    ytFetch := fun _ _ => .error "no" }

/-- Phase-A enabled, dry-run. -/
def argsC5 : Args :=
  { argsBase with use_mp3_sites := true, dry_run := true, mp3_site := "soundcloud" }

/-- Environment whose fetch capability always fails with "boom". -/
def envC6 : Env :=
  { hq_results := [], yt_search := .ok [], pathExists := fun _ => false,
    hqFetch := fun _ => .ok false, ytFetch := fun _ _ => .error "boom" }

/-- A Phase-B candidate. -/
def eC6 : Entry := ⟨"vid", some "t", none, none⟩

/-- Environment: one Phase-B search result, every output path exists. -/
def envC8 : Env :=
  { hq_results := [], yt_search := .ok [eX], pathExists := fun _ => true,
    hqFetch := fun _ => .ok false, ytFetch := fun _ _ => .ok () }

/-- Skip-existing enabled. -/
def argsC8 : Args := { argsBase with skip_existing := true }

/-- Environment: one Phase-B search result, no path exists, fetch succeeds. -/
def envC10 : Env :=
  { hq_results := [], yt_search := .ok [eX], pathExists := fun _ => false,
    hqFetch := fun _ => .ok false, ytFetch := fun _ _ => .ok () }

/-- A non-positive limit. -/
def argsC10 : Args := { argsBase with limit := 0 }

-- General lemmas about the substring machinery.

theorem isPref_append {n h : List Char} (s : List Char)
    (hp : isPref n h = true) : isPref n (h ++ s) = true := by
  induction n generalizing h with
  | nil => rfl
  | cons a as ih =>
    cases h with
    | nil => simp [isPref] at hp
    | cons b bs =>
      simp only [List.cons_append, isPref, Bool.and_eq_true,
        decide_eq_true_eq] at hp ⊢
      exact ⟨hp.1, ih hp.2⟩

theorem findSub_append {n h : List Char} (s : List Char)
    (hf : (findSub n h).isSome = true) : (findSub n (h ++ s)).isSome = true := by
  induction h with
  | nil =>
    have hn : n = [] := by
      cases n with
      | nil => rfl
      | cons a as => simp [findSub, isPref] at hf
    subst hn
    cases s with
    | nil => exact hf
    | cons c t => simp [findSub, isPref]
  | cons c t ih =>
    rw [List.cons_append]
    by_cases hp : isPref n (c :: t) = true
    · have hp' : isPref n (c :: (t ++ s)) = true := by
        have := isPref_append (n := n) (h := c :: t) s hp
        rwa [List.cons_append] at this
      simp [findSub, hp']
    · unfold findSub at hf
      rw [if_neg hp] at hf
      rw [Option.isSome_map'] at hf
      have h2 := ih hf
      by_cases hq : isPref n (c :: (t ++ s)) = true
      · simp [findSub, hq]
      · unfold findSub
        rw [if_neg hq, Option.isSome_map']
        exact h2

theorem occurs_append {kw T : String} (u : String)
    (h : occurs kw T = true) : occurs kw (T ++ u) = true := by
  have : (T ++ u).data = T.data ++ u.data := rfl
  unfold occurs at h ⊢
  rw [this]
  exact findSub_append u.data h

theorem countP_occurs_append (L : List String) (T u : String) :
    L.countP (fun kw => occurs kw T) ≤ L.countP (fun kw => occurs kw (T ++ u)) :=
  List.countP_mono_left (fun _ _ h => occurs_append u h)

-- Monotonicity of the penalty rules in the keyword counts.

theorem strongPenalty_append (T u : String) :
    strongPenalty (T ++ u) ≤ strongPenalty T := by
  unfold strongPenalty
  have h := countP_occurs_append STRONG_PENALTIES T u
  have h' : ((STRONG_PENALTIES.countP (fun kw => occurs kw T) : ℚ)) ≤
      ((STRONG_PENALTIES.countP (fun kw => occurs kw (T ++ u)) : ℚ)) := by
    exact_mod_cast h
  linarith

theorem untrustedPenalty_mono {t t' : String}
    (h : untrustedCount t ≤ untrustedCount t') :
    untrustedPenalty t' ≤ untrustedPenalty t := by
  unfold untrustedPenalty
  have hc : ((untrustedCount t : ℚ)) ≤ ((untrustedCount t' : ℚ)) := by
    exact_mod_cast h
  have h0 : (0 : ℚ) ≤ (untrustedCount t' : ℚ) := by positivity
  split_ifs with h1 h2 h2 <;> linarith

theorem promoPenalty_mono {t t' : String}
    (h : promoCount t ≤ promoCount t') :
    promoPenalty t' ≤ promoPenalty t := by
  unfold promoPenalty
  have hc : ((promoCount t : ℚ)) ≤ ((promoCount t' : ℚ)) := by exact_mod_cast h
  have h0 : (0 : ℚ) ≤ (promoCount t' : ℚ) := by positivity
  split_ifs with h1 h2 h2 <;> linarith

theorem lengthTermOf_antitone {m n : Nat} (h : m ≤ n) :
    lengthTermOf n ≤ lengthTermOf m := by
  unfold lengthTermOf
  split_ifs <;> first | (exfalso; omega) | norm_num

-- Lower bounds for every additive rule, and for their sum.

theorem strongPenalty_ge (t : String) : -600 ≤ strongPenalty t := by
  unfold strongPenalty
  have h : STRONG_PENALTIES.countP (fun kw => occurs kw t) ≤ 30 := by
    have := List.countP_le_length (l := STRONG_PENALTIES)
      (p := fun kw => occurs kw t)
    simpa using this
  have h' : ((STRONG_PENALTIES.countP (fun kw => occurs kw t) : ℚ)) ≤ 30 := by
    exact_mod_cast h
  linarith

theorem untrustedPenalty_ge (t : String) : -313 ≤ untrustedPenalty t := by
  unfold untrustedPenalty
  have h : untrustedCount t ≤ 101 := by
    have := List.countP_le_length (l := UNTRUSTED_KEYWORDS)
      (p := fun kw => occurs kw t)
    simpa [untrustedCount] using this
  have h' : ((untrustedCount t : ℚ)) ≤ 101 := by exact_mod_cast h
  split_ifs
  · linarith
  · norm_num

theorem promoPenalty_ge (t : String) : -12 ≤ promoPenalty t := by
  unfold promoPenalty
  have h : promoCount t ≤ 6 := by
    have := List.countP_le_length (l := promotional_keywords)
      (p := fun kw => occurs kw t)
    simpa [promoCount] using this
  have h' : ((promoCount t : ℚ)) ≤ 6 := by exact_mod_cast h
  split_ifs
  · linarith
  · norm_num

theorem trustedBonus_nonneg (t : String) : 0 ≤ trustedBonus t := by
  unfold trustedBonus
  split_ifs <;> norm_num

theorem matchBonus_nonneg (t s : String) : 0 ≤ matchBonus t s := by
  unfold matchBonus
  cases findSub s.data t.data with
  | none => norm_num
  | some idx =>
    dsimp only
    split_ifs <;> norm_num

theorem wordBonus_nonneg (t s : String) : 0 ≤ wordBonus t s := by
  unfold wordBonus
  positivity

theorem lengthTerm_ge (t : String) : -8 ≤ lengthTerm t := by
  unfold lengthTerm lengthTermOf
  split_ifs <;> norm_num

theorem scoreBase_ge (t s : String) : -933 ≤ scoreBase t s := by
  unfold scoreBase
  have h1 := strongPenalty_ge t
  have h2 := untrustedPenalty_ge t
  have h3 := trustedBonus_nonneg t
  have h4 := matchBonus_nonneg t s
  have h5 := wordBonus_nonneg t s
  have h6 := lengthTerm_ge t
  have h7 := promoPenalty_ge t
  linarith

theorem viewBonus_nonneg (v : ℚ) : 0 ≤ viewBonus v := by
  unfold viewBonus
  split_ifs with h
  · have hv : (1 : ℝ) ≤ (v : ℝ) + 1 := by
      have : (0 : ℝ) < (v : ℝ) := by exact_mod_cast h
      linarith
    have := Real.logb_nonneg (b := 10) (by norm_num) hv
    positivity
  · exact le_refl 0

theorem viewBonus_zero : viewBonus 0 = 0 := by
  unfold viewBonus
  norm_num

-- Unfolding lemmas for `score_entry`.

theorem score_entry_of_ok (e : Entry) (song : String) (m M : Option ℚ)
    (h1 : pyLower (e.title.getD "") ≠ "")
    (h2 : durExcludedOpt e.duration m M = false) :
    score_entry e song m M =
      ((scoreBase (pyLower (e.title.getD "")) (pyLower song) : ℚ) : ℝ) +
        viewBonus (e.view_count.getD 0) := by
  unfold score_entry
  rw [if_neg h1, h2]
  simp

theorem score_entry_of_empty (e : Entry) (song : String) (m M : Option ℚ)
    (h : e.title.getD "" = "") : score_entry e song m M = -999 := by
  unfold score_entry
  rw [h]
  simp [pyLower]

theorem score_entry_of_durExcluded (e : Entry) (song : String) (m M : Option ℚ)
    (h : durExcludedOpt e.duration m M = true) :
    score_entry e song m M = -999 := by
  unfold score_entry
  rw [h]
  by_cases h1 : pyLower (e.title.getD "") = ""
  · rw [if_pos h1]
  · rw [if_neg h1, if_pos rfl]

theorem score_entry_gt_sentinel (e : Entry) (song : String) (m M : Option ℚ)
    (h1 : pyLower (e.title.getD "") ≠ "")
    (h2 : durExcludedOpt e.duration m M = false) :
    (-999 : ℝ) < score_entry e song m M := by
  rw [score_entry_of_ok e song m M h1 h2]
  have hb : ((-933 : ℚ) : ℝ) ≤
      ((scoreBase (pyLower (e.title.getD "")) (pyLower song) : ℚ) : ℝ) := by
    exact_mod_cast scoreBase_ge _ _
  have hv := viewBonus_nonneg (e.view_count.getD 0)
  have : ((-933 : ℚ) : ℝ) = (-933 : ℝ) := by norm_num
  linarith [this ▸ hb]


theorem insertDesc_perm {α β : Type _} [LinearOrder β] (key : α → β) (x : α)
    (l : List α) : (insertDesc key x l).Perm (x :: l) := by
  induction l with
  | nil => rfl
  | cons y ys ih =>
    unfold insertDesc
    split_ifs
    · rfl
    · exact (ih.cons y).trans (List.Perm.swap x y ys)

theorem sortDesc_perm {α β : Type _} [LinearOrder β] (key : α → β)
    (l : List α) : (sortDesc key l).Perm l := by
  induction l with
  | nil => rfl
  | cons x xs ih =>
    unfold sortDesc
    exact (insertDesc_perm key x (sortDesc key xs)).trans (ih.cons x)

theorem insertDesc_pairwise {α β : Type _} [LinearOrder β] {key : α → β}
    {x : α} {l : List α} (h : l.Pairwise (fun a b => key b ≤ key a)) :
    (insertDesc key x l).Pairwise (fun a b => key b ≤ key a) := by
  induction l with
  | nil => simp [insertDesc]
  | cons y ys ih =>
    rw [List.pairwise_cons] at h
    unfold insertDesc
    split_ifs with hyx
    · refine List.Pairwise.cons ?_ (List.Pairwise.cons h.1 h.2)
      intro b hb
      rcases List.mem_cons.mp hb with hb | hb
      · exact hb ▸ hyx
      · exact (h.1 b hb).trans hyx
    · refine List.Pairwise.cons ?_ (ih h.2)
      intro b hb
      have hb' := (insertDesc_perm key x ys).mem_iff.mp hb
      rcases List.mem_cons.mp hb' with hb' | hb'
      · exact hb' ▸ (le_of_lt (lt_of_not_le hyx))
      · exact h.1 b hb'

theorem sortDesc_pairwise {α β : Type _} [LinearOrder β] (key : α → β)
    (l : List α) : (sortDesc key l).Pairwise (fun a b => key b ≤ key a) := by
  induction l with
  | nil => simp [sortDesc]
  | cons x xs ih => exact insertDesc_pairwise ih

theorem insertDesc_filter_key {α β : Type _} [LinearOrder β] (key : α → β)
    (q : β) (x : α) (l : List α) :
    (insertDesc key x l).filter (fun a => decide (key a = q)) =
      if key x = q then x :: l.filter (fun a => decide (key a = q))
      else l.filter (fun a => decide (key a = q)) := by
  induction l with
  | nil =>
    show [x].filter (fun a => decide (key a = q)) = _
    by_cases hx : key x = q <;> simp [List.filter_cons, hx]
  | cons y ys ih =>
    unfold insertDesc
    by_cases hyx : key y ≤ key x
    · rw [if_pos hyx]
      by_cases hx : key x = q <;> simp [List.filter_cons, hx]
    · rw [if_neg hyx, List.filter_cons, ih]
      by_cases hx : key x = q
      · by_cases hy : key y = q
        · exfalso
          have hlt : key x < key y := lt_of_not_le hyx
          rw [hx, hy] at hlt
          exact lt_irrefl q hlt
        · simp [List.filter_cons, hx, hy]
      · by_cases hy : key y = q <;> simp [List.filter_cons, hx, hy]

theorem sortDesc_filter_key {α β : Type _} [LinearOrder β] (key : α → β)
    (q : β) (l : List α) :
    (sortDesc key l).filter (fun a => decide (key a = q)) =
      l.filter (fun a => decide (key a = q)) := by
  induction l with
  | nil => rfl
  | cons x xs ih =>
    unfold sortDesc
    rw [insertDesc_filter_key, List.filter_cons]
    by_cases hx : key x = q
    · rw [if_pos hx, if_pos (by simpa using hx), ih]
    · rw [if_neg hx, if_neg (by simpa using hx), ih]

theorem sortDesc_head_ge {α β : Type _} [LinearOrder β] (key : α → β)
    {l : List α} {p : α} {t : List α} (hs : sortDesc key l = p :: t)
    {q : α} (hq : q ∈ l) : key q ≤ key p := by
  have hq' : q ∈ sortDesc key l := (sortDesc_perm key l).mem_iff.mpr hq
  rw [hs] at hq'
  rcases List.mem_cons.mp hq' with h | h
  · exact h ▸ le_refl _
  · have hp := sortDesc_pairwise key l
    rw [hs, List.pairwise_cons] at hp
    exact hp.1 q h


-- Sanity checks on small concrete inputs (kept as `example`s).

example : occurs "top" "top hay nhất" = true := by decide

example : promoCount "top hay nhất đặc biệt" = 3 := by decide

example : promoCount "top hay nhất đặc biệt siêu phẩm" = 4 := by decide

example : scoreBase "new" "new version" = 9 / 2 := by
  have h1 : STRONG_PENALTIES.countP (fun kw => occurs kw "new") = 0 := by decide
  have h2 : UNTRUSTED_KEYWORDS.countP (fun kw => occurs kw "new") = 0 := by
    decide
  have h3 : TRUSTED_ARTISTS.any (fun a => occurs a "new") = false := by decide
  have h4 : findSub ("new version").data ("new").data = none := by decide
  have h5 : (songWords "new version").countP (fun w => occurs w "new") = 1 := by
    decide
  have h6 : promoCount "new" = 0 := by decide
  have h7 : ("new" : String).length = 3 := by decide
  simp only [scoreBase, strongPenalty, untrustedPenalty, trustedBonus,
    matchBonus, wordBonus, lengthTerm, lengthTermOf, promoPenalty,
    untrustedCount, h1, h2, h3, h4, h5, h6, h7]
  norm_num

example : scoreBase "new version" "new version" = 9 := by
  have h1 : STRONG_PENALTIES.countP (fun kw => occurs kw "new version") = 0 := by
    decide
  have h2 : UNTRUSTED_KEYWORDS.countP (fun kw => occurs kw "new version") = 1 := by
    decide
  have h3 : TRUSTED_ARTISTS.any (fun a => occurs a "new version") = false := by
    decide
  have h4 : findSub ("new version").data ("new version").data = some 0 := by
    decide
  have h5 : (songWords "new version").countP (fun w => occurs w "new version") = 2 := by
    decide
  have h6 : promoCount "new version" = 0 := by decide
  have h7 : ("new version" : String).length = 11 := by decide
  simp only [scoreBase, strongPenalty, untrustedPenalty, trustedBonus,
    matchBonus, wordBonus, lengthTerm, lengthTermOf, promoPenalty,
    untrustedCount, h1, h2, h3, h4, h5, h6, h7]
  norm_num

-- Further helper lemmas.

theorem pyLower_eq_empty_iff (s : String) : pyLower s = "" ↔ s = "" := by
  constructor
  · intro h
    have hd : s.data.map Char.toLower = [] := congrArg String.data h
    exact String.ext (List.map_eq_nil_iff.mp hd)
  · intro h
    rw [h]
    rfl

theorem pyLower_append (a b : String) :
    pyLower (a ++ b) = pyLower a ++ pyLower b := by
  apply String.ext
  show ((a ++ b).data).map Char.toLower = _
  have : (a ++ b).data = a.data ++ b.data := rfl
  rw [this, List.map_append]
  rfl

/-- Evaluation scheme for `scoreBase`: once each keyword count is known, the
score is plain arithmetic. -/
theorem scoreBase_eval (title song : String) (ns nu : ℕ) (tb : Bool)
    (mi : Option ℕ) (nw np len : ℕ)
    (h1 : STRONG_PENALTIES.countP (fun kw => occurs kw title) = ns)
    (h2 : UNTRUSTED_KEYWORDS.countP (fun kw => occurs kw title) = nu)
    (h3 : TRUSTED_ARTISTS.any (fun a => occurs a title) = tb)
    (h4 : findSub song.data title.data = mi)
    (h5 : (songWords song).countP (fun w => occurs w title) = nw)
    (h6 : promotional_keywords.countP (fun kw => occurs kw title) = np)
    (h7 : title.length = len) :
    scoreBase title song =
      -(20 * (ns : ℚ)) +
      (if 0 < nu then -(10 + (nu : ℚ) * 3) else 0) +
      (if tb then 8 else 0) +
      (match mi with
       | none => 0
       | some idx => 8 + (if idx = 0 then 8 else if idx ≤ 15 then (4 : ℚ) else 0)) +
      (nw : ℚ) * (3 / 2) +
      lengthTermOf len +
      (if 2 < np then -((np : ℚ) * 2) else 0) := by
  unfold scoreBase strongPenalty untrustedPenalty untrustedCount trustedBonus
    matchBonus wordBonus lengthTerm promoPenalty promoCount
  simp only [h1, h2, h3, h4, h5, h6, h7]
  cases mi with
  | none => rfl
  | some idx => rfl

/-- Evaluation scheme for `score_entry` at a non-excluded candidate with a
known rational base score and no view count. -/
theorem score_entry_eval (e : Entry) (song : String) (m M : Option ℚ)
    (q : ℚ)
    (htne : pyLower (e.title.getD "") ≠ "")
    (hd : durExcludedOpt e.duration m M = false)
    (hq : scoreBase (pyLower (e.title.getD "")) (pyLower song) = q)
    (hv : e.view_count.getD 0 = 0) :
    score_entry e song m M = (q : ℝ) := by
  rw [score_entry_of_ok e song m M htne hd, hq, hv, viewBonus_zero, add_zero]

/-- With an unknown duration, a non-empty title is never scored `-999`
(the additive rules are bounded below by `-933`). -/
theorem score_entry_unknownDur_ne (e : Entry) (song : String) (m M : Option ℚ)
    (hd : e.duration = none) (ht : e.title.getD "" ≠ "") :
    score_entry e song m M ≠ -999 := by
  have h1 : pyLower (e.title.getD "") ≠ "" := fun hc =>
    ht ((pyLower_eq_empty_iff _).mp hc)
  have h2 : durExcludedOpt e.duration m M = false := by
    rw [hd]
    rfl
  exact (score_entry_gt_sentinel e song m M h1 h2).ne'

-- Claim theorems.

/-- C1, counterexample.  With exactly 3 of the curated promotional terms
present the extra subtraction is 6, with 4 terms it is 8; no constant of
proportionality `c` against the excess count (1 resp. 2) fits both, so the
penalty is not proportional to the excess over the threshold. -/
theorem C1_counterexample :
    promoCount "top hay nhất đặc biệt" = 3 ∧
    promoCount "top hay nhất đặc biệt siêu phẩm" = 4 ∧
    promoPenalty "top hay nhất đặc biệt" = -6 ∧
    promoPenalty "top hay nhất đặc biệt siêu phẩm" = -8 ∧
    ¬ ∃ c : ℚ,
      promoPenalty "top hay nhất đặc biệt" = -(c * ((3 : ℚ) - 2)) ∧
      promoPenalty "top hay nhất đặc biệt siêu phẩm" = -(c * ((4 : ℚ) - 2)) := by
  have hc1 : promoCount "top hay nhất đặc biệt" = 3 := by decide
  have hc2 : promoCount "top hay nhất đặc biệt siêu phẩm" = 4 := by decide
  have hp1 : promoPenalty "top hay nhất đặc biệt" = -6 := by
    unfold promoPenalty
    rw [hc1]
    norm_num
  have hp2 : promoPenalty "top hay nhất đặc biệt siêu phẩm" = -8 := by
    unfold promoPenalty
    rw [hc2]
    norm_num
  refine ⟨hc1, hc2, hp1, hp2, ?_⟩
  rintro ⟨c, h1, h2⟩
  rw [hp1] at h1
  rw [hp2] at h2
  have hc : c = 6 := by linarith
  rw [hc] at h2
  norm_num at h2

/-- C1, amended: when more than 2 of the curated promotional terms co-occur
in the title, the scorer subtracts 2 points per co-occurring term (a penalty
proportional to the total count, not to the excess over the threshold), and
it does so on top of all earlier additive rules; at 2 or fewer co-occurring
terms no extra penalty applies. -/
theorem C1_thm (title song : String) (m M : Option ℚ) (e : Entry) :
    (2 < promoCount title → promoPenalty title = -((promoCount title : ℚ) * 2)) ∧
    (promoCount title ≤ 2 → promoPenalty title = 0) ∧
    (pyLower (e.title.getD "") ≠ "" → durExcludedOpt e.duration m M = false →
      score_entry e song m M =
        ((strongPenalty (pyLower (e.title.getD "")) +
          untrustedPenalty (pyLower (e.title.getD "")) +
          trustedBonus (pyLower (e.title.getD "")) +
          matchBonus (pyLower (e.title.getD "")) (pyLower song) +
          wordBonus (pyLower (e.title.getD "")) (pyLower song) +
          lengthTerm (pyLower (e.title.getD "")) +
          promoPenalty (pyLower (e.title.getD "")) : ℚ) : ℝ) +
        viewBonus (e.view_count.getD 0)) := by
  refine ⟨?_, ?_, ?_⟩
  · intro h
    unfold promoPenalty
    rw [if_pos h]
  · intro h
    unfold promoPenalty
    rw [if_neg (by omega)]
  · intro h1 h2
    rw [score_entry_of_ok e song m M h1 h2]
    rfl

/-- C1, witness for the amended theorem. -/
theorem C1_witness :
    promoPenalty "top hay nhất đặc biệt siêu phẩm" =
      -((promoCount "top hay nhất đặc biệt siêu phẩm" : ℚ) * 2) ∧
    promoPenalty "top" = 0 ∧
    score_entry ⟨"", some "top", none, none⟩ "top" none none =
      ((strongPenalty (pyLower "top") + untrustedPenalty (pyLower "top") +
        trustedBonus (pyLower "top") +
        matchBonus (pyLower "top") (pyLower "top") +
        wordBonus (pyLower "top") (pyLower "top") +
        lengthTerm (pyLower "top") + promoPenalty (pyLower "top") : ℚ) : ℝ) +
      viewBonus 0 :=
  ⟨(C1_thm "top hay nhất đặc biệt siêu phẩm" "top" none none
      ⟨"", some "top", none, none⟩).1 (by decide),
   (C1_thm "top" "top" none none ⟨"", some "top", none, none⟩).2.1
      (by decide),
   (C1_thm "top" "top" none none ⟨"", some "top", none, none⟩).2.2
      (by decide) rfl⟩

/-- C2, counterexample.  The candidate has known duration 20, both bounds are
supplied (`minDuration = 0`, `maxDuration = 0`), and 20 lies strictly outside
`[0, 0]` — yet the scorer does not return the sentinel (Python truthiness
makes a zero bound inert), scoring the candidate 3 instead of EXCLUDED. -/
theorem C2_counterexample :
    (some (20 : ℚ)) ≠ (none : Option ℚ) ∧
    ¬ ((0 : ℚ) ≤ 20 ∧ (20 : ℚ) ≤ 0) ∧
    score_entry ⟨"", some "x", some 20, none⟩ "y" (some 0) (some 0) = 3 ∧
    score_entry ⟨"", some "x", some 20, none⟩ "y" (some 0) (some 0) ≠ -999 := by
  have hd : durExcludedOpt (some (20 : ℚ)) (some 0) (some 0) = false := by
    show durationExcluded 20 (some 0) (some 0) = false
    unfold durationExcluded
    norm_num
  have hbase :
      scoreBase (pyLower (((some "x" : Option String)).getD "")) (pyLower "y") = 3 := by
    rw [show pyLower ((some "x" : Option String).getD "") = "x" from by decide,
      show pyLower "y" = "y" from by decide,
      scoreBase_eval "x" "y" 0 0 false none 0 0 1 (by decide) (by decide)
        (by decide) (by decide) (by decide) (by decide) (by decide)]
    unfold lengthTermOf
    norm_num
  have h := score_entry_eval ⟨"", some "x", some 20, none⟩ "y" (some 0) (some 0)
    3 (by decide) hd hbase rfl
  refine ⟨by simp, by norm_num, ?_, ?_⟩
  · rw [h]
    norm_num
  · rw [h]
    norm_num

/-- C2, amended: the scorer returns the sentinel for every candidate with
missing/empty title; it returns the sentinel for every known duration
strictly outside `[minDuration, maxDuration]` when both bounds are supplied
and nonzero (the code treats a zero bound as absent — Python truthiness);
and a candidate with unknown duration and non-empty title is never scored
with the sentinel. -/
theorem C2_thm :
    (∀ (e : Entry) (song : String) (m M : Option ℚ), e.title.getD "" = "" →
      score_entry e song m M = -999) ∧
    (∀ (e : Entry) (song : String) (mv Mv d : ℚ), e.duration = some d →
      mv ≠ 0 → Mv ≠ 0 → (d < mv ∨ Mv < d) →
      score_entry e song (some mv) (some Mv) = -999) ∧
    (∀ (e : Entry) (song : String) (m M : Option ℚ), e.duration = none →
      e.title.getD "" ≠ "" → score_entry e song m M ≠ -999) := by
  refine ⟨?_, ?_, ?_⟩
  · intro e song m M h
    exact score_entry_of_empty e song m M h
  · intro e song mv Mv d he hmv hMv hout
    apply score_entry_of_durExcluded
    rw [he]
    show durationExcluded d (some mv) (some Mv) = true
    rcases hout with hlt | hgt
    · simp [durationExcluded, hmv, hlt]
    · simp [durationExcluded, hMv, hgt]
  · intro e song m M hd ht
    exact score_entry_unknownDur_ne e song m M hd ht

/-- C2, witness. -/
theorem C2_witness :
    score_entry ⟨"", none, none, none⟩ "s" none none = -999 ∧
    score_entry ⟨"", some "x", some 50, none⟩ "s" (some 120) (some 300) = -999 ∧
    score_entry ⟨"", some "x", none, none⟩ "s" none none ≠ -999 :=
  ⟨C2_thm.1 ⟨"", none, none, none⟩ "s" none none rfl,
   C2_thm.2.1 ⟨"", some "x", some 50, none⟩ "s" 120 300 50 rfl
     (by norm_num) (by norm_num) (Or.inl (by norm_num)),
   C2_thm.2.2 ⟨"", some "x", none, none⟩ "s" none none rfl (by decide)⟩

/-- C3, counterexample.  Appending one occurrence of the untrusted keyword
"version" (absent from the original title "new") to the title raises the
score from 4.5 to 9 when the target title is "new version": the new keyword
completes a verbatim target-title match at position 0 (+16) and adds a
matching target word (+1.5), outweighing the untrusted penalty (−13). -/
theorem C3_counterexample :
    "version" ∈ UNTRUSTED_KEYWORDS ∧
    occurs "version" (pyLower "new") = false ∧
    ("new version" : String) = "new" ++ " " ++ "version" ∧
    score_entry ⟨"", some "new", none, none⟩ "new version" none none = 9 / 2 ∧
    score_entry ⟨"", some "new version", none, none⟩ "new version" none none = 9 ∧
    score_entry ⟨"", some "new", none, none⟩ "new version" none none <
      score_entry ⟨"", some "new version", none, none⟩ "new version" none none := by
  have hb1 : scoreBase (pyLower ((some "new" : Option String).getD ""))
      (pyLower "new version") = 9 / 2 := by
    rw [show pyLower ((some "new" : Option String).getD "") = "new" from by decide,
      show pyLower "new version" = "new version" from by decide,
      scoreBase_eval "new" "new version" 0 0 false none 1 0 3 (by decide)
        (by decide) (by decide) (by decide) (by decide) (by decide) (by decide)]
    unfold lengthTermOf
    norm_num
  have hb2 : scoreBase (pyLower ((some "new version" : Option String).getD ""))
      (pyLower "new version") = 9 := by
    rw [show pyLower ((some "new version" : Option String).getD "") = "new version"
        from by decide,
      show pyLower "new version" = "new version" from by decide,
      scoreBase_eval "new version" "new version" 0 1 false (some 0) 2 0 11
        (by decide) (by decide) (by decide) (by decide) (by decide) (by decide)
        (by decide)]
    unfold lengthTermOf
    norm_num
  have h1 := score_entry_eval ⟨"", some "new", none, none⟩ "new version"
    none none (9 / 2) (by decide) rfl hb1 rfl
  have h2 := score_entry_eval ⟨"", some "new version", none, none⟩ "new version"
    none none 9 (by decide) rfl hb2 rfl
  refine ⟨by decide, by decide, rfl, ?_, ?_, ?_⟩
  · rw [h1]
    norm_num
  · rw [h2]
    norm_num
  · rw [h1, h2]
    norm_num

/-- Appending text to a title can only worsen the penalty rules and the
length shaping; if the appended text creates no new target-title match, no
new trusted-artist match and no new target-word matches, the base score
cannot increase. -/
theorem scoreBase_append_le (T u song' : String)
    (hmatch : matchBonus (T ++ u) song' ≤ matchBonus T song')
    (htrust : trustedBonus (T ++ u) ≤ trustedBonus T)
    (hword : wordBonus (T ++ u) song' ≤ wordBonus T song') :
    scoreBase (T ++ u) song' ≤ scoreBase T song' := by
  have h1 : strongPenalty (T ++ u) ≤ strongPenalty T := strongPenalty_append T u
  have h2 : untrustedPenalty (T ++ u) ≤ untrustedPenalty T := by
    apply untrustedPenalty_mono
    exact countP_occurs_append UNTRUSTED_KEYWORDS T u
  have h3 : promoPenalty (T ++ u) ≤ promoPenalty T := by
    apply promoPenalty_mono
    exact countP_occurs_append promotional_keywords T u
  have h4 : lengthTerm (T ++ u) ≤ lengthTerm T := by
    unfold lengthTerm
    apply lengthTermOf_antitone
    rw [String.length_append]
    exact Nat.le_add_right _ _
  unfold scoreBase
  linarith

/-- C3, amended: appending one occurrence of a distinct untrusted keyword
(one not already present as a substring of the title) to a fixed non-empty
candidate title never increases the score, provided the appended text does
not create a new target-title match, a new trusted-artist match, or new
matching target words (without that proviso the score can increase, see the
counterexample: the appended keyword may complete the target phrase). -/
theorem C3_thm (e e' : Entry) (song kw : String) (m M : Option ℚ)
    (hkw : kw ∈ UNTRUSTED_KEYWORDS)
    (htitle : e'.title.getD "" = e.title.getD "" ++ " " ++ kw)
    (hnotin : occurs kw (pyLower (e.title.getD "")) = false)
    (hne : pyLower (e.title.getD "") ≠ "")
    (hdur : e'.duration = e.duration)
    (hview : e'.view_count = e.view_count)
    (hmatch : matchBonus (pyLower (e'.title.getD "")) (pyLower song) ≤
      matchBonus (pyLower (e.title.getD "")) (pyLower song))
    (htrust : trustedBonus (pyLower (e'.title.getD "")) ≤
      trustedBonus (pyLower (e.title.getD "")))
    (hword : wordBonus (pyLower (e'.title.getD "")) (pyLower song) ≤
      wordBonus (pyLower (e.title.getD "")) (pyLower song)) :
    score_entry e' song m M ≤ score_entry e song m M := by
  have happ : pyLower (e'.title.getD "") =
      pyLower (e.title.getD "") ++ pyLower (" " ++ kw) := by
    calc pyLower (e'.title.getD "")
        = pyLower ((e.title.getD "" ++ " ") ++ kw) := by rw [htitle]
      _ = (pyLower (e.title.getD "") ++ pyLower " ") ++ pyLower kw := by
          rw [pyLower_append, pyLower_append]
      _ = pyLower (e.title.getD "") ++ (pyLower " " ++ pyLower kw) :=
          String.append_assoc _ _ _
      _ = pyLower (e.title.getD "") ++ pyLower (" " ++ kw) := by
          rw [← pyLower_append]
  have hne' : pyLower (e'.title.getD "") ≠ "" := by
    rw [happ]
    intro hc
    apply hne
    have hdata : (pyLower (e.title.getD "")).data ++
        (pyLower (" " ++ kw)).data = [] := congrArg String.data hc
    exact String.ext (List.append_eq_nil.mp hdata).1
  by_cases hexc : durExcludedOpt e.duration m M = true
  · have hexc' : durExcludedOpt e'.duration m M = true := by rw [hdur]; exact hexc
    rw [score_entry_of_durExcluded e' song m M hexc',
      score_entry_of_durExcluded e song m M hexc]
  · have hfe : durExcludedOpt e.duration m M = false := eq_false_of_ne_true hexc
    have hfe' : durExcludedOpt e'.duration m M = false := by rw [hdur]; exact hfe
    rw [score_entry_of_ok e' song m M hne' hfe',
      score_entry_of_ok e song m M hne hfe, hview]
    have hsb : scoreBase (pyLower (e'.title.getD "")) (pyLower song) ≤
        scoreBase (pyLower (e.title.getD "")) (pyLower song) := by
      rw [happ]
      rw [happ] at hmatch htrust hword
      exact scoreBase_append_le _ _ _ hmatch htrust hword
    have hcast : ((scoreBase (pyLower (e'.title.getD "")) (pyLower song) : ℚ) : ℝ) ≤
        ((scoreBase (pyLower (e.title.getD "")) (pyLower song) : ℚ) : ℝ) := by
      exact_mod_cast hsb
    linarith

/-- C3, witness for the amended theorem. -/
theorem C3_witness :
    score_entry ⟨"", some "cover song remix", none, none⟩ "abc" none none ≤
      score_entry ⟨"", some "cover song", none, none⟩ "abc" none none := by
  have hm1 : matchBonus (pyLower ((some "cover song remix" : Option String).getD ""))
      (pyLower "abc") = 0 := by
    unfold matchBonus
    rw [show findSub (pyLower "abc").data
      (pyLower ((some "cover song remix" : Option String).getD "")).data = none
      from by decide]
  have hm2 : matchBonus (pyLower ((some "cover song" : Option String).getD ""))
      (pyLower "abc") = 0 := by
    unfold matchBonus
    rw [show findSub (pyLower "abc").data
      (pyLower ((some "cover song" : Option String).getD "")).data = none
      from by decide]
  have ht1 : trustedBonus (pyLower ((some "cover song remix" : Option String).getD "")) = 0 := by
    unfold trustedBonus
    rw [show (TRUSTED_ARTISTS.any (fun a => occurs a
      (pyLower ((some "cover song remix" : Option String).getD "")))) = false
      from by decide]
    rfl
  have ht2 : trustedBonus (pyLower ((some "cover song" : Option String).getD "")) = 0 := by
    unfold trustedBonus
    rw [show (TRUSTED_ARTISTS.any (fun a => occurs a
      (pyLower ((some "cover song" : Option String).getD "")))) = false
      from by decide]
    rfl
  have hw1 : wordBonus (pyLower ((some "cover song remix" : Option String).getD ""))
      (pyLower "abc") = 0 := by
    unfold wordBonus
    rw [show ((songWords (pyLower "abc")).countP (fun w => occurs w
      (pyLower ((some "cover song remix" : Option String).getD "")))) = 0
      from by decide]
    norm_num
  have hw2 : wordBonus (pyLower ((some "cover song" : Option String).getD ""))
      (pyLower "abc") = 0 := by
    unfold wordBonus
    rw [show ((songWords (pyLower "abc")).countP (fun w => occurs w
      (pyLower ((some "cover song" : Option String).getD "")))) = 0
      from by decide]
    norm_num
  exact C3_thm ⟨"", some "cover song", none, none⟩
    ⟨"", some "cover song remix", none, none⟩ "abc" "remix" none none
    (by decide) rfl (by decide) (by decide) rfl rfl
    (by rw [hm1, hm2]) (by rw [ht1, ht2]) (by rw [hw1, hw2])

/-- C4: every candidate passing the exclusion rules (non-empty title,
duration unknown or within the supplied bounds) with a non-negative view
count scores strictly above the `-999` sentinel, and any scored pair with a
score above the sentinel survives the sentinel-based filter used in
`download_song` — no eligible candidate is dropped. -/
theorem C4_thm (e : Entry) (song : String) (m M : Option ℚ)
    (ht : e.title.getD "" ≠ "")
    (hd : e.duration = none ∨ ∃ d, e.duration = some d ∧
      (∀ mv, m = some mv → mv ≤ d) ∧ (∀ Mv, M = some Mv → d ≤ Mv))
    (hv : 0 ≤ e.view_count.getD 0) :
    (-999 : ℝ) < score_entry e song m M ∧
    ∀ l : List (ℝ × Entry), (score_entry e song m M, e) ∈ l →
      (score_entry e song m M, e) ∈ filterEligible l := by
  have ht' : pyLower (e.title.getD "") ≠ "" := fun hc =>
    ht ((pyLower_eq_empty_iff _).mp hc)
  have hfe : durExcludedOpt e.duration m M = false := by
    rcases hd with hnone | ⟨d, hdd, hmin, hmax⟩
    · rw [hnone]
      rfl
    · rw [hdd]
      show durationExcluded d m M = false
      unfold durationExcluded
      cases m with
      | none =>
        cases M with
        | none => rfl
        | some Mv =>
          have hnotM : ¬ Mv < d := not_lt.mpr (hmax Mv rfl)
          by_cases h0 : Mv = 0 <;> simp [h0, hnotM]
      | some mv =>
        have hnotm : ¬ d < mv := not_lt.mpr (hmin mv rfl)
        cases M with
        | none => by_cases h0 : mv = 0 <;> simp [h0, hnotm]
        | some Mv =>
          have hnotM : ¬ Mv < d := not_lt.mpr (hmax Mv rfl)
          by_cases h0 : mv = 0 <;> by_cases h1 : Mv = 0 <;>
            simp [h0, h1, hnotm, hnotM]
  refine ⟨score_entry_gt_sentinel e song m M ht' hfe, ?_⟩
  intro l hmem
  unfold filterEligible
  rw [List.mem_filter]
  exact ⟨hmem, decide_eq_true (score_entry_gt_sentinel e song m M ht' hfe)⟩

/-- C4, witness. -/
theorem C4_witness :
    (-999 : ℝ) < score_entry ⟨"", some "x", some 100, some 0⟩ "s"
      (some 50) (some 200) ∧
    (score_entry ⟨"", some "x", some 100, some 0⟩ "s" (some 50) (some 200),
      (⟨"", some "x", some 100, some 0⟩ : Entry)) ∈
      filterEligible [(score_entry ⟨"", some "x", some 100, some 0⟩ "s"
        (some 50) (some 200), ⟨"", some "x", some 100, some 0⟩)] := by
  have h := C4_thm ⟨"", some "x", some 100, some 0⟩ "s" (some 50) (some 200)
    (by decide)
    (Or.inr ⟨100, rfl, ?_, ?_⟩) (by norm_num)
  · exact ⟨h.1, h.2 _ (List.mem_singleton.mpr rfl)⟩
  · intro mv hmv
    injection hmv with hmv
    rw [← hmv]
    norm_num
  · intro Mv hMv
    injection hMv with hMv
    rw [← hMv]
    norm_num

/-- C7: the Phase-B ranking (`rankCandidates`, i.e. Python
`sort(key=lambda x: x[0], reverse=True)`) sorts any fixed list of scored
candidates by score descending, equal scores keep their original relative
order (stability, expressed as preservation of every equal-score fiber), and
repeating the sort on identical input yields the identical sequence. -/
theorem C7_thm (l : List (ℝ × Entry)) :
    (rankCandidates l).Pairwise (fun a b => b.1 ≤ a.1) ∧
    (∀ q : ℝ, (rankCandidates l).filter (fun s => decide (s.1 = q)) =
      l.filter (fun s => decide (s.1 = q))) ∧
    ((rankCandidates l).Perm l ∧ rankCandidates l = rankCandidates l) := by
  refine ⟨?_, ?_, ?_, rfl⟩
  · exact sortDesc_pairwise (fun s : ℝ × Entry => s.1) l
  · intro q
    exact sortDesc_filter_key (fun s : ℝ × Entry => s.1) q l
  · exact sortDesc_perm (fun s : ℝ × Entry => s.1) l

/-- C9: in the Phase-A tier every search result with an absent duration is
filtered out before ranking (a missing duration is read as 0 and the tier
requires duration > 30), while the fallback scorer never excludes a
candidate for an unknown duration (a non-empty title never scores the
sentinel). -/
theorem C9_thm :
    (∀ (entries : List Entry) (e : Entry), e.duration = none →
      e ∉ search_high_quality_sources entries) ∧
    (∀ (e : Entry) (song : String) (m M : Option ℚ), e.duration = none →
      e.title.getD "" ≠ "" → score_entry e song m M ≠ -999) := by
  constructor
  · intro entries e hdur hmem
    unfold search_high_quality_sources at hmem
    have hmem2 := List.take_subset 10 _ hmem
    have hmem3 := (sortDesc_perm qualityScore _).mem_iff.mp hmem2
    have hp := (List.mem_filter.mp hmem3).2
    have := of_decide_eq_true hp
    rw [hdur] at this
    norm_num at this
  · intro e song m M hd ht
    exact score_entry_unknownDur_ne e song m M hd ht

/-- C9, witness. -/
theorem C9_witness :
    (⟨"", some "x", none, none⟩ : Entry) ∉
      search_high_quality_sources [⟨"", some "x", none, none⟩] ∧
    score_entry ⟨"", some "x", none, none⟩ "s" none none ≠ -999 :=
  ⟨C9_thm.1 [⟨"", some "x", none, none⟩] ⟨"", some "x", none, none⟩ rfl,
   C9_thm.2 ⟨"", some "x", none, none⟩ "s" none none rfl (by decide)⟩

/-- C5: if Phase A (the high-quality tier) records at least one success —
real or simulated under dry-run — then `download_song` returns the Phase-A
outcome unchanged with the Phase-B marker unset, and the result does not
depend on the fallback-tier search at all (the fallback search is never
consulted). -/
theorem C5_thm (env : Env) (args : Args) (song : String)
    (huse : args.use_mp3_sites = true)
    (hsucc : 0 < (phaseA env args song).1) :
    download_song env args song =
      ⟨(phaseA env args song).1, (phaseA env args song).2.1.length,
        (phaseA env args song).2.1, false, (phaseA env args song).2.2, [], []⟩ ∧
    (download_song env args song).usedPhaseB = false ∧
    (∀ s', download_song { env with yt_search := s' } args song =
      download_song env args song) := by
  have key : ∀ env2 : Env, phaseA env2 args song = phaseA env args song →
      download_song env2 args song =
        ⟨(phaseA env args song).1, (phaseA env args song).2.1.length,
          (phaseA env args song).2.1, false, (phaseA env args song).2.2, [], []⟩ := by
    intro env2 hph
    unfold download_song
    rw [if_pos huse]
    simp only [hph]
    rw [if_pos hsucc]
  have h1 := key env rfl
  exact ⟨h1, by rw [h1], fun s' => by
    rw [key { env with yt_search := s' } rfl, h1]⟩

/-- C5, witness: one dry-run Phase-A success terminates resolution at
Phase A. -/
theorem C5_witness :
    0 < (phaseA envC5 argsC5 "bài ca").1 ∧
    (download_song envC5 argsC5 "bài ca").usedPhaseB = false := by
  have hph : 0 < (phaseA envC5 argsC5 "bài ca").1 := by decide
  exact ⟨hph, (C5_thm envC5 argsC5 "bài ca" rfl hph).2.1⟩

/-- C6: in Phase B, when the first fetch attempt fails and the fallback
client profile is permitted and differs from the one in use
(`client ≠ "android"`), exactly one retry is issued, with the fallback
profile merged into the fetch options (`player_client = ["android"]`
overriding, other fields preserved); and when the retry also fails, the
recorded failure line carries the wrapped error of the retry, not the error
of the first attempt. -/
theorem C6_thm (env : Env) (args : Args) (song : String) (st : BState)
    (idx : ℕ) (sc : ℝ) (e : Entry) (e1 e2 : String)
    (hclient : args.client ≠ "android")
    (hskip : (args.skip_existing &&
      env.pathExists (topMp3 args song idx (e.title.getD "Unknown"))) = false)
    (hdry : args.dry_run = false)
    (h1 : env.ytFetch (ytUrl e) (bOpts args song idx (e.title.getD "Unknown")) =
      .error e1)
    (h2 : env.ytFetch (ytUrl e)
      (mergeAndroid (bOpts args song idx (e.title.getD "Unknown"))) = .error e2) :
    try_download env.ytFetch (ytUrl e)
        (bOpts args song idx (e.title.getD "Unknown")) true =
      (.error ("Tải thất bại sau khi thử fallback android: " ++ e2),
        [(ytUrl e, bOpts args song idx (e.title.getD "Unknown")),
         (ytUrl e, mergeAndroid (bOpts args song idx (e.title.getD "Unknown")))]) ∧
    (mergeAndroid (bOpts args song idx (e.title.getD "Unknown"))).playerClient =
      some ["android"] ∧
    phaseBStep env args song st (idx, sc, e) =
      { st with
        fails := st.fails ++ [song ++ "\tTop" ++ toString idx ++ "\t" ++
          e.title.getD "Unknown" ++ "\t" ++
          ("Tải thất bại sau khi thử fallback android: " ++ e2)]
        attempts := st.attempts ++ [(idx, e.title.getD "Unknown")]
        fetchCalls := st.fetchCalls ++
          [(ytUrl e, bOpts args song idx (e.title.getD "Unknown")),
           (ytUrl e, mergeAndroid (bOpts args song idx (e.title.getD "Unknown")))] } := by
  have htd : try_download env.ytFetch (ytUrl e)
      (bOpts args song idx (e.title.getD "Unknown")) true =
      (.error ("Tải thất bại sau khi thử fallback android: " ++ e2),
        [(ytUrl e, bOpts args song idx (e.title.getD "Unknown")),
         (ytUrl e, mergeAndroid (bOpts args song idx (e.title.getD "Unknown")))]) := by
    unfold try_download
    rw [h1]
    simp only [if_true]
    rw [h2]
  have hbool : (args.client != "android") = true := bne_iff_ne.mpr hclient
  refine ⟨htd, rfl, ?_⟩
  unfold phaseBStep
  simp only [hskip, Bool.false_eq_true, if_false, hdry, hbool, htd]

/-- C6, witness: with a fetch capability that always fails with "boom", the
Phase-B step records the wrapped retry error and two fetch calls. -/
theorem C6_witness :
    phaseBStep envC6 argsBase "song" ⟨0, [], [], []⟩ (1, 0, eC6) =
      ⟨0, ["song\tTop1\tt\tTải thất bại sau khi thử fallback android: boom"],
        [(1, "t")],
        [(ytUrl eC6, bOpts argsBase "song" 1 "t"),
         (ytUrl eC6, mergeAndroid (bOpts argsBase "song" 1 "t"))]⟩ := by
  have h := C6_thm envC6 argsBase "song" ⟨0, [], [], []⟩ 1 0 eC6 "boom" "boom"
    (by decide) rfl rfl rfl rfl
  exact h.2.2

-- Concrete-run evaluation helpers for C8/C10.

theorem score_eX : score_entry eX "y" none none = ((3 : ℚ) : ℝ) := by
  have hbase : scoreBase (pyLower (eX.title.getD "")) (pyLower "y") = 3 := by
    rw [show pyLower (eX.title.getD "") = "x" from by decide,
      show pyLower "y" = "y" from by decide,
      scoreBase_eval "x" "y" 0 0 false none 0 0 1 (by decide) (by decide)
        (by decide) (by decide) (by decide) (by decide) (by decide)]
    unfold lengthTermOf
    norm_num
  exact score_entry_eval eX "y" none none 3 (by decide) rfl hbase rfl

theorem score_eX_gt : (-999 : ℝ) < score_entry eX "y" none none := by
  rw [score_eX]
  norm_num

theorem filterEligible_eX :
    filterEligible [(score_entry eX "y" none none, eX)] =
      [(score_entry eX "y" none none, eX)] := by
  unfold filterEligible
  simp only [List.filter_cons]
  rw [decide_eq_true score_eX_gt]
  rfl

theorem rank_singleton (p : ℝ × Entry) : rankCandidates [p] = [p] := rfl

theorem topn_eX_C8 :
    topnOf argsC8 (scoredOf argsC8 "y" [eX]) =
      [(score_entry eX "y" none none, eX)] := by
  unfold topnOf
  rw [show scoredOf argsC8 "y" [eX] = [(score_entry eX "y" none none, eX)]
    from rfl]
  rw [filterEligible_eX, rank_singleton]
  rfl

/-- Unfolding of `phaseB` for a successful non-empty search with a non-empty
ranked selection. -/
theorem phaseB_ok (env : Env) (args : Args) (song : String) (succ0 : ℕ)
    (fails0 : List String) (acalls : List Entry) (entries : List Entry)
    (topn : List (ℝ × Entry))
    (hs : env.yt_search = .ok entries) (hne : entries ≠ [])
    (htopn : topnOf args (scoredOf args song entries) = topn)
    (hne2 : topn ≠ []) :
    phaseB env args song succ0 fails0 acalls =
      ⟨((topn.enumFrom 1).foldl (phaseBStep env args song)
          ⟨succ0, fails0, [], []⟩).succ,
        ((topn.enumFrom 1).foldl (phaseBStep env args song)
          ⟨succ0, fails0, [], []⟩).fails.length,
        ((topn.enumFrom 1).foldl (phaseBStep env args song)
          ⟨succ0, fails0, [], []⟩).fails, true, acalls,
        ((topn.enumFrom 1).foldl (phaseBStep env args song)
          ⟨succ0, fails0, [], []⟩).attempts,
        ((topn.enumFrom 1).foldl (phaseBStep env args song)
          ⟨succ0, fails0, [], []⟩).fetchCalls⟩ := by
  unfold phaseB
  rw [hs]
  dsimp only
  rw [if_neg hne, htopn, if_neg hne2]

/-- C8, counterexample.  With skip-existing enabled and the deterministic
output path of the candidate present, the candidate is ranked (it is the single
`topn` element), yet the outcome records of the resolution are entirely empty —
no record of any kind (in particular no Skipped record) is produced, no
fetch call is issued, and `successes = 0`. -/
theorem C8_counterexample :
    (-999 : ℝ) < score_entry eX "y" none none ∧
    (score_entry eX "y" none none, eX) ∈
      topnOf argsC8 (scoredOf argsC8 "y" [eX]) ∧
    argsC8.skip_existing = true ∧
    envC8.pathExists (topMp3 argsC8 "y" 1 "x") = true ∧
    download_song envC8 argsC8 "y" = ⟨0, 0, [], true, [], [], []⟩ := by
  refine ⟨score_eX_gt, ?_, rfl, rfl, ?_⟩
  · rw [topn_eX_C8]
    exact List.mem_singleton.mpr rfl
  · unfold download_song
    rw [if_neg (by decide)]
    rw [phaseB_ok envC8 argsC8 "y" 0 [] [] [eX]
      [(score_entry eX "y" none none, eX)] rfl (List.cons_ne_nil _ _)
      topn_eX_C8 (List.cons_ne_nil _ _)]
    rfl

/-- C8, amended: a ranked candidate whose deterministic output path exists
while skip-existing is enabled is skipped: the loop state is completely
unchanged — no fetch call is issued, successCount does not increase, and
(unlike the claim) nothing at all is recorded in the outcome records; the
same holds for the Phase-A loop. -/
theorem C8_thm (env : Env) (args : Args) (song : String) (st : BState)
    (idx : ℕ) (sc : ℝ) (e : Entry) (st2 : ℕ × List String × List Entry)
    (idx2 : ℕ) (r : Entry)
    (hskip : args.skip_existing = true)
    (hexB : env.pathExists (topMp3 args song idx (e.title.getD "Unknown")) = true)
    (hexA : env.pathExists (hqMp3 args song idx2 (r.title.getD "Unknown")) = true) :
    phaseBStep env args song st (idx, sc, e) = st ∧
    phaseAStep env args song st2 (idx2, r) = st2 := by
  constructor
  · simp only [phaseBStep]
    rw [if_pos (by rw [hskip, hexB]; rfl)]
  · simp only [phaseAStep]
    rw [if_pos (by rw [hskip, hexA]; rfl)]

/-- C8, witness for the amended theorem. -/
theorem C8_witness :
    phaseBStep envC8 argsC8 "s" ⟨0, [], [], []⟩ (1, 0, eX) = ⟨0, [], [], []⟩ ∧
    phaseAStep envC8 argsC8 "s" (0, [], []) (1, eX) = (0, [], []) :=
  C8_thm envC8 argsC8 "s" ⟨0, [], [], []⟩ 1 0 eX (0, [], []) 1 eX
    rfl rfl rfl

/-- Without skip-existing and dry-run, every Phase-B loop iteration reaches
the fetch stage and records exactly one attempt. -/
theorem phaseBStep_attempts (env : Env) (args : Args) (song : String)
    (st : BState) (p : ℕ × ℝ × Entry)
    (hskip : args.skip_existing = false) (hdry : args.dry_run = false) :
    (phaseBStep env args song st p).attempts =
      st.attempts ++ [(p.1, p.2.2.title.getD "Unknown")] := by
  simp only [phaseBStep, hskip, Bool.false_and, Bool.false_eq_true, if_false,
    hdry]
  split <;> rfl

/-- C10: for a non-positive `limit`, the Phase-B selection
`scored[:max(1, limit)]` is clamped to exactly one candidate — the
highest-scored non-EXCLUDED result — and (with skip-existing and dry-run
off) the resolution performs exactly one download attempt when an eligible
candidate exists. -/
theorem C10_thm (env : Env) (args : Args) (song : String)
    (entries : List Entry)
    (hmp3 : args.use_mp3_sites = false)
    (hsearch : env.yt_search = .ok entries)
    (hlim : args.limit ≤ 0)
    (hne : filterEligible (scoredOf args song entries) ≠ [])
    (hskip : args.skip_existing = false)
    (hdry : args.dry_run = false) :
    (topnOf args (scoredOf args song entries)).length = 1 ∧
    (∀ p ∈ topnOf args (scoredOf args song entries),
      ∀ q ∈ filterEligible (scoredOf args song entries), q.1 ≤ p.1) ∧
    (download_song env args song).attempts.length = 1 := by
  have hmax : (max 1 args.limit).toNat = 1 := by
    rw [max_eq_left (hlim.trans (by norm_num))]
    rfl
  have hrne : rankCandidates (filterEligible (scoredOf args song entries)) ≠ [] := by
    intro hc
    apply hne
    have hlen := (sortDesc_perm (fun s : ℝ × Entry => s.1)
      (filterEligible (scoredOf args song entries))).length_eq
    rw [show sortDesc (fun s : ℝ × Entry => s.1)
        (filterEligible (scoredOf args song entries)) =
      rankCandidates (filterEligible (scoredOf args song entries)) from rfl,
      hc] at hlen
    exact List.length_eq_zero.mp hlen.symm
  have hlen1 : (topnOf args (scoredOf args song entries)).length = 1 := by
    unfold topnOf
    rw [hmax, List.length_take]
    exact min_eq_left (List.length_pos.mpr hrne)
  obtain ⟨p, hp⟩ := List.length_eq_one.mp hlen1
  refine ⟨hlen1, ?_, ?_⟩
  · have hex : ∃ t, rankCandidates (filterEligible (scoredOf args song entries)) =
        p :: t := by
      cases hr : rankCandidates (filterEligible (scoredOf args song entries)) with
      | nil => exact absurd hr hrne
      | cons a t =>
        have h2 : topnOf args (scoredOf args song entries) = [a] := by
          unfold topnOf
          rw [hmax, hr]
          rfl
        rw [hp] at h2
        injection h2 with h3 h4
        exact ⟨t, by rw [h3]⟩
    obtain ⟨t, ht⟩ := hex
    intro p' hp' q hq
    rw [hp] at hp'
    rw [List.mem_singleton.mp hp']
    exact sortDesc_head_ge (fun s : ℝ × Entry => s.1) ht hq
  · have hent : entries ≠ [] := by
      intro hc
      apply hne
      rw [hc]
      rfl
    unfold download_song
    rw [if_neg (by simp [hmp3])]
    rw [phaseB_ok env args song 0 [] [] entries
      (topnOf args (scoredOf args song entries)) hsearch hent rfl
      (by rw [hp]; exact List.cons_ne_nil _ _)]
    rw [hp]
    show ((phaseBStep env args song ⟨0, [], [], []⟩ (1, p)).attempts).length = 1
    rw [phaseBStep_attempts env args song _ _ hskip hdry]
    rfl

/-- C10, witness. -/
theorem C10_witness :
    (topnOf argsC10 (scoredOf argsC10 "y" [eX])).length = 1 ∧
    (download_song envC10 argsC10 "y").attempts.length = 1 := by
  have hne : filterEligible (scoredOf argsC10 "y" [eX]) ≠ [] := by
    rw [show scoredOf argsC10 "y" [eX] = [(score_entry eX "y" none none, eX)]
      from rfl]
    rw [filterEligible_eX]
    exact List.cons_ne_nil _ _
  have h := C10_thm envC10 argsC10 "y" [eX] rfl rfl (by decide) hne rfl rfl
  exact ⟨h.1, h.2.2⟩
